import Mathlib

/-!
Shallow embedding of the gen-rescue-back SOS triage backend.

JavaScript strings are modelled as Lean `String`s; case-insensitive
substring matching works on `List Char` after mapping `Char.toLower`
(all keyword data is ASCII).  JavaScript numbers that matter to the
claims (confidence scores, coordinates) are modelled as `ℚ`.  Fields
that may be `undefined`/`null` in JavaScript are modelled as `Option`,
with the JS truthiness convention: `none` is falsy, and for strings
`some ""` is falsy too, for numbers `some 0` is falsy.
-/

/-- JS truthiness of an optional string: `undefined`, `null` and `""` are falsy. -/
def truthyStr : Option String → Bool
  | none => false
  | some s => !(s == "")

/-- JS truthiness of an optional number: `undefined`, `null` and `0` are falsy. -/
def truthyNum : Option ℚ → Bool
  | none => false
  | some q => !(q == 0)

/-- JS `x || d` for an optional string value `x` and default `d`. -/
def jsOrStr (o : Option String) (d : String) : String :=
  match o with
  | none => d
  | some s => if s == "" then d else s

/-- JS `x || d` for an optional numeric value `x` and default `d`. -/
def jsOrNum (o : Option ℚ) (d : ℚ) : ℚ :=
  match o with
  | none => d
  | some q => if q == 0 then d else q

/-- Lowercased character list of a string, modelling JS `toLowerCase()`
on the ASCII data used by the keyword ruleset. -/
def lowerChars (s : String) : List Char :=
  s.toList.map Char.toLower

/-- JS `hay.includes(needle)`: `needle` occurs as a contiguous sublist of `hay`. -/
def jsIncludes (needle : List Char) : List Char → Bool
  | [] => needle.isPrefixOf []
  | c :: t => needle.isPrefixOf (c :: t) || jsIncludes needle t

/-- `CRITICAL_KEYWORDS` from the validation service (src/unnamed/part_001). -/
def CRITICAL_KEYWORDS : List String :=
  ["trapped", "stuck", "can\x27t move", "cannot move", "bleeding", "blood",
   "injured", "hurt", "pain", "fire", "smoke", "burning", "flames",
   "drowning", "water rising", "flood", "collapsed", "rubble", "debris",
   "unconscious", "not breathing", "chest pain", "help", "emergency",
   "urgent", "dying", "broken", "fracture", "severe", "earthquake",
   "aftershock"]

/-- `HIGH_KEYWORDS` from the validation service (src/unnamed/part_001). -/
def HIGH_KEYWORDS : List String :=
  ["lost", "stranded", "alone", "cold", "freezing", "hypothermia",
   "dehydrated", "thirsty", "no water", "hungry", "no food", "scared",
   "afraid", "panic", "shelter", "nowhere to go", "supplies",
   "medication", "medicine"]

/-- `CRITICAL_KEYWORDS.some(k => transcriptLower.includes(k.toLowerCase()))`. -/
def hasCriticalKw (transcript : String) : Bool :=
  CRITICAL_KEYWORDS.any fun k => jsIncludes (lowerChars k) (lowerChars transcript)

/-- `HIGH_KEYWORDS.some(k => transcriptLower.includes(k.toLowerCase()))`. -/
def hasHighKw (transcript : String) : Bool :=
  HIGH_KEYWORDS.any fun k => jsIncludes (lowerChars k) (lowerChars transcript)

/-- The AI analysis record as consumed by `validateAIAnalysis`:
`urgency`, `confidence`, `eventType` and `needs` are the fields the
function reads.  `eventType` and `needs` may be absent in JS. -/
structure AIAnalysis where
  urgency : String
  confidence : ℚ
  eventType : Option String
  needs : Option (List String)
deriving DecidableEq, Repr

/-- Result record of `validateAIAnalysis`. -/
structure ValidationResult where
  hasKeywords : Bool
  hasCriticalKeywords : Bool
  hasHighKeywords : Bool
  meetsThreshold : Bool
  manualReview : Bool
  adjustedUrgency : String
  validationPassed : Bool
  warnings : List String
deriving DecidableEq, Repr

/-- `!aiAnalysis.eventType || aiAnalysis.eventType === "Unknown"`. -/
def eventTypeUnclear (et : Option String) : Bool :=
  !(truthyStr et) || et == some "Unknown"

/-- `!aiAnalysis.needs || aiAnalysis.needs.length === 0`. -/
def needsEmpty (needs : Option (List String)) : Bool :=
  match needs with
  | none => true
  | some l => l.isEmpty

/-- `generateWarnings` from the validation service: four independent
warning messages, emitted in source order. -/
def generateWarnings (aiAnalysis : AIAnalysis)
    (hasCriticalKeywords meetsThreshold : Bool) : List String :=
  (if !meetsThreshold then ["Low confidence in AI analysis"] else []) ++
  (if hasCriticalKeywords && !(aiAnalysis.urgency == "CRITICAL") then
      ["Critical keywords detected but urgency not marked as CRITICAL"]
    else []) ++
  (if eventTypeUnclear aiAnalysis.eventType then
      ["Unable to determine event type"]
    else []) ++
  (if needsEmpty aiAnalysis.needs then ["No specific needs identified"] else [])

/-- `validateAIAnalysis` from the validation service: keyword scan,
confidence threshold, the sequential override rules on `manualReview`
and `adjustedUrgency`, and the warnings list. -/
def validateAIAnalysis (aiAnalysis : AIAnalysis) (transcript : String) :
    ValidationResult :=
  let hasCriticalKeywords := hasCriticalKw transcript
  let hasHighKeywords := hasHighKw transcript
  let meetsThreshold := decide (aiAnalysis.confidence ≥ 0.6)
  let escalate := hasCriticalKeywords &&
    (aiAnalysis.urgency == "LOW" || aiAnalysis.urgency == "MEDIUM")
  let adjustedUrgency := if escalate then "CRITICAL" else aiAnalysis.urgency
  let manualReview := escalate || decide (aiAnalysis.confidence < 0.5) ||
    eventTypeUnclear aiAnalysis.eventType
  { hasKeywords := hasCriticalKeywords || hasHighKeywords
    hasCriticalKeywords := hasCriticalKeywords
    hasHighKeywords := hasHighKeywords
    meetsThreshold := meetsThreshold
    manualReview := manualReview
    adjustedUrgency := adjustedUrgency
    validationPassed := true
    warnings := generateWarnings aiAnalysis hasCriticalKeywords meetsThreshold }

/-- The SOS request data consumed by `validateSOSData`; any field of the
JS object may be absent. -/
structure LocationData where
  latitude : Option ℚ
  longitude : Option ℚ
deriving DecidableEq, Repr

/-- Request data for `validateSOSData`. -/
structure SOSData where
  sessionId : Option String
  sosType : Option String
  location : Option LocationData
deriving DecidableEq, Repr

/-- Result record of `validateSOSData`. -/
structure SOSValidation where
  isValid : Bool
  errors : List String
deriving DecidableEq, Repr

/-- `validateSOSData` from the validation service: required-field checks
(JS truthiness, so a coordinate of `0` counts as missing), coordinate
range checks (a JS comparison against `undefined` is false, hence the
range checks only fire on present values), and the sosType whitelist. -/
def validateSOSData (sosData : SOSData) : SOSValidation :=
  let errors :=
    (if !truthyStr sosData.sessionId then ["Session ID is required"] else []) ++
    (if !truthyStr sosData.sosType then ["SOS type is required"] else []) ++
    (if sosData.location = none ∨
        !truthyNum ((sosData.location.map LocationData.latitude).join) ∨
        !truthyNum ((sosData.location.map LocationData.longitude).join) then
      ["Location data is required"] else []) ++
    (match sosData.location with
     | none => []
     | some loc =>
       (match loc.latitude with
        | some lat => if lat < -90 ∨ lat > 90 then ["Invalid latitude value"] else []
        | none => []) ++
       (match loc.longitude with
        | some lon => if lon < -180 ∨ lon > 180 then ["Invalid longitude value"] else []
        | none => [])) ++
    (match sosData.sosType with
     | some t =>
       if !(t == "") ∧ ¬ (t ∈ ["voice", "text", "photo"]) then
         ["Invalid SOS type. Must be one of: voice, text, photo"] else []
     | none => [])
  { isValid := errors.isEmpty, errors := errors }

/-- The structured analysis record returned by `analyzeSOSContent` on
its success path (all fields defaulted, hence total). -/
structure Analysis where
  urgency : String
  summary : String
  eventType : String
  injuryStatus : String
  riskFactors : List String
  needs : List String
  confidence : ℚ
deriving DecidableEq, Repr

/-- The raw JSON object parsed from the inference service's reply: every
field may be absent; `riskFactors`/`needs` are `none` when the JSON
value is not an array (`Array.isArray` fails). -/
structure RawAnalysis where
  urgency : Option String
  summary : Option String
  eventType : Option String
  injuryStatus : Option String
  riskFactors : Option (List String)
  needs : Option (List String)
  confidence : Option ℚ
deriving DecidableEq, Repr

/-- Outcome of the upstream inference call inside `analyzeSOSContent`:
the API call threw (carrying an optional HTTP status), `JSON.parse`
threw, or a JSON object was parsed. -/
inductive GptOutcome where
  | callFailure (status : Option Nat)
  | parseFailure
  | parsed (raw : RawAnalysis)
deriving DecidableEq, Repr

/-- The hard-coded fallback record of `analyzeSOSContent`'s catch block. -/
def degradedAnalysis : Analysis :=
  { urgency := "HIGH"
    summary := "AI analysis failed - requires manual review"
    eventType := "Unknown"
    injuryStatus := "Unknown"
    riskFactors := ["AI processing error"]
    needs := ["Manual review required"]
    confidence := 0 }

/-- `analyzeSOSContent` from src/src/services/gptService.js.  A missing
`urgency` or `summary` throws inside the try block; that error has no
`status`, so the catch returns the degraded default.  Only an error with
`status === 401` is re-thrown (`Except.error`). -/
def analyzeSOSContent (outcome : GptOutcome) : Except String Analysis :=
  match outcome with
  | .callFailure status =>
    if status == some 401 then .error "Invalid OpenAI API key"
    else .ok degradedAnalysis
  | .parseFailure => .ok degradedAnalysis
  | .parsed raw =>
    if !truthyStr raw.urgency || !truthyStr raw.summary then
      .ok degradedAnalysis
    else
      .ok { urgency := jsOrStr raw.urgency "MEDIUM"
            summary := jsOrStr raw.summary "Unable to generate summary"
            eventType := jsOrStr raw.eventType "Unknown"
            injuryStatus := jsOrStr raw.injuryStatus "Unknown"
            riskFactors := raw.riskFactors.getD []
            needs := raw.needs.getD []
            confidence := jsOrNum raw.confidence 0.5 }

/-- View of an `Analysis` as the argument object of `validateAIAnalysis`
(all fields are present strings/lists on this path). -/
def Analysis.toAIAnalysis (a : Analysis) : AIAnalysis :=
  { urgency := a.urgency
    confidence := a.confidence
    eventType := some a.eventType
    needs := some a.needs }

/-- The persisted Case document fields touched by the pipeline. -/
structure CaseRecord where
  sessionId : String
  sosType : String
  transcript : Option String
  aiAnalysis : Option Analysis
  hasKeywordsFlag : Option Bool
  meetsThresholdFlag : Option Bool
  manualReviewFlag : Option Bool
  status : String
  processingErrors : List String
deriving DecidableEq, Repr

/-- `processVoiceSOS` from src/src/controllers/sosController.js, as a
function of the created Case record and the outcomes of the two adapter
calls.  The catch block sets `status = "failed"` and records the error
message; the success path persists the transcript, then the validated
analysis, and marks the case `processed`. -/
def processVoiceSOS (sos : CaseRecord) (transcription : Except String String)
    (gpt : GptOutcome) : CaseRecord :=
  match transcription with
  | .error msg => { sos with status := "failed", processingErrors := [msg] }
  | .ok transcript =>
    let sos1 := { sos with transcript := some transcript, status := "processing" }
    match analyzeSOSContent gpt with
    | .error msg => { sos1 with status := "failed", processingErrors := [msg] }
    | .ok aiAnalysis =>
      let v := validateAIAnalysis aiAnalysis.toAIAnalysis transcript
      { sos1 with
        aiAnalysis := some { aiAnalysis with urgency := v.adjustedUrgency }
        hasKeywordsFlag := some v.hasKeywords
        meetsThresholdFlag := some v.meetsThreshold
        manualReviewFlag := some v.manualReview
        status := "processed" }

/-- JS `s.trim().length === 0`: every character of `s` is whitespace. -/
def trimmedEmpty (s : String) : Bool :=
  s.toList.all Char.isWhitespace

/-- Request body of `POST /api/sos/text`. -/
structure TextRequest where
  sessionId : Option String
  location : Option LocationData
  message : Option String
deriving DecidableEq, Repr

/-- Result of a text-SOS intake: the HTTP status sent to the caller and
the Case record as it is left in the store (`none` when no Case was
created). -/
structure TextIntakeResult where
  httpStatus : Nat
  caseRecord : Option CaseRecord
deriving DecidableEq, Repr

/-- `createTextSOS` from src/src/controllers/sosController.js.  Input
validation happens before Case creation; after the Case is created in
`"processing"`, the analysis and validation stages run inside the same
try block, whose catch only sends a 500 response — it does not update
the created Case. -/
def createTextSOS (req : TextRequest) (gpt : GptOutcome) : TextIntakeResult :=
  let validation := validateSOSData
    { sessionId := req.sessionId, sosType := some "text", location := req.location }
  if !validation.isValid then
    { httpStatus := 400, caseRecord := none }
  else if !truthyStr req.message || trimmedEmpty (req.message.getD "") then
    { httpStatus := 400, caseRecord := none }
  else
    let message := req.message.getD ""
    let sos : CaseRecord :=
      { sessionId := req.sessionId.getD ""
        sosType := "text"
        transcript := some message
        aiAnalysis := none
        hasKeywordsFlag := none
        meetsThresholdFlag := none
        manualReviewFlag := none
        status := "processing"
        processingErrors := [] }
    match analyzeSOSContent gpt with
    | .error _ => { httpStatus := 500, caseRecord := some sos }
    | .ok aiAnalysis =>
      let v := validateAIAnalysis aiAnalysis.toAIAnalysis message
      { httpStatus := 201
        caseRecord := some
          { sos with
            aiAnalysis := some { aiAnalysis with urgency := v.adjustedUrgency }
            hasKeywordsFlag := some v.hasKeywords
            meetsThresholdFlag := some v.meetsThreshold
            manualReviewFlag := some v.manualReview
            status := "processed" } }

/-- A case row as seen by the dashboard listing (the fields the sort
specification reads). -/
structure DashboardCase where
  urgency : String
  receivedAt : Nat
deriving DecidableEq, Repr

/-- Byte-wise lexicographic strict order on character lists; on the
ASCII urgency labels this is MongoDB's default string comparison. -/
def charListLt : List Char → List Char → Bool
  | [], [] => false
  | [], _ :: _ => true
  | _ :: _, [] => false
  | a :: as, b :: bs =>
    if a.toNat < b.toNat then true
    else if a.toNat == b.toNat then charListLt as bs
    else false

/-- MongoDB's string comparison, specialised to the urgency labels. -/
def mongoStrLt (a b : String) : Bool :=
  charListLt a.toList b.toList

/-- Comparator realised by `.sort({ "aiAnalysis.urgency": -1, receivedAt: -1 })`:
urgency descending (lexicographically, since the field is a string),
then receivedAt descending. -/
def sosSortBefore (a b : DashboardCase) : Bool :=
  mongoStrLt b.urgency a.urgency ||
    (a.urgency == b.urgency && decide (b.receivedAt ≤ a.receivedAt))

/-- Insert one case into a list already ordered by `sosSortBefore`. -/
def insertByUrgency (c : DashboardCase) : List DashboardCase → List DashboardCase
  | [] => [c]
  | d :: t => if sosSortBefore c d then c :: d :: t else d :: insertByUrgency c t

/-- `getAllSOS` (no filter) from src/src/controllers/sosController.js:
returns the stored cases ordered by the MongoDB sort specification
`{ "aiAnalysis.urgency": -1, receivedAt: -1 }`. -/
def getAllSOS (cases : List DashboardCase) : List DashboardCase :=
  cases.foldr insertByUrgency []

/-- Numeric rank of the urgency labels under the ordering
LOW < MEDIUM < HIGH < CRITICAL used by the specification. -/
def urgencyRank (u : String) : ℕ :=
  if u = "LOW" then 0 else if u = "MEDIUM" then 1
  else if u = "HIGH" then 2 else if u = "CRITICAL" then 3 else 0

/-- Outcomes on which `analyzeSOSContent`'s try block fails or its
output lacks the required shape (missing/empty `urgency` or `summary`). -/
def gptFailsOrMalformed : GptOutcome → Bool
  | .callFailure _ => true
  | .parseFailure => true
  | .parsed raw => !truthyStr raw.urgency || !truthyStr raw.summary

/-- A freshly created voice Case record, as persisted by `createVoiceSOS`
before background processing starts. -/
def voiceCaseEx : CaseRecord :=
  { sessionId := "s1", sosType := "voice", transcript := none,
    aiAnalysis := none, hasKeywordsFlag := none, meetsThresholdFlag := none,
    manualReviewFlag := none, status := "processing", processingErrors := [] }

theorem manualReview_iff (a : AIAnalysis) (t : String) :
    (validateAIAnalysis a t).manualReview = true ↔
      (hasCriticalKw t = true ∧ (a.urgency = "LOW" ∨ a.urgency = "MEDIUM")) ∨
      a.confidence < 0.5 ∨ eventTypeUnclear a.eventType = true := by
  simp [validateAIAnalysis, Bool.or_eq_true, Bool.and_eq_true, decide_eq_true_iff]
  tauto

theorem mem_warnings (a : AIAnalysis) (hc mt : Bool) :
    ("Low confidence in AI analysis" ∈ generateWarnings a hc mt ↔ mt = false) ∧
    ("Critical keywords detected but urgency not marked as CRITICAL" ∈
        generateWarnings a hc mt ↔ (hc = true ∧ a.urgency ≠ "CRITICAL")) ∧
    ("Unable to determine event type" ∈ generateWarnings a hc mt ↔
        eventTypeUnclear a.eventType = true) ∧
    ("No specific needs identified" ∈ generateWarnings a hc mt ↔
        needsEmpty a.needs = true) := by
  cases hc <;> cases mt <;>
    cases hu : (a.urgency == "CRITICAL") <;>
      cases he : eventTypeUnclear a.eventType <;>
        cases hn : needsEmpty a.needs <;>
          simp_all [generateWarnings]

/-- Claim C1: any critical-list keyword occurring case-insensitively as a
substring of the raw text, together with an input urgency of LOW or
MEDIUM, forces `adjustedUrgency = "CRITICAL"` and `manualReview = true`. -/
theorem c1_critical_keyword_override (aiAnalysis : AIAnalysis) (rawText : String)
    (hkw : ∃ k ∈ CRITICAL_KEYWORDS, jsIncludes (lowerChars k) (lowerChars rawText) = true)
    (hu : aiAnalysis.urgency = "LOW" ∨ aiAnalysis.urgency = "MEDIUM") :
    (validateAIAnalysis aiAnalysis rawText).adjustedUrgency = "CRITICAL" ∧
    (validateAIAnalysis aiAnalysis rawText).manualReview = true := by
  have hc : hasCriticalKw rawText = true := by
    obtain ⟨k, hk, hinc⟩ := hkw
    simp [hasCriticalKw, List.any_eq_true]
    exact ⟨k, hk, hinc⟩
  rcases hu with hu | hu <;> simp [validateAIAnalysis, hc, hu]

/-- Witness for C1: the keyword "help" occurs (case-insensitively) in
"Please HELP me" and a LOW analysis is escalated. -/
theorem c1_witness :
    (validateAIAnalysis ⟨"LOW", 0.9, some "fire", some ["rescue"]⟩
        "Please HELP me").adjustedUrgency = "CRITICAL" ∧
    (validateAIAnalysis ⟨"LOW", 0.9, some "fire", some ["rescue"]⟩
        "Please HELP me").manualReview = true :=
  c1_critical_keyword_override ⟨"LOW", 0.9, some "fire", some ["rescue"]⟩
    "Please HELP me" ⟨"help", by decide, by decide⟩ (Or.inl rfl)

/-- Claim C2: the adjusted urgency is never lower than the input urgency —
it equals the input urgency or `"CRITICAL"`, an input of CRITICAL or HIGH
is never changed, absent any critical keyword the input is returned
unchanged, and the rank under LOW < MEDIUM < HIGH < CRITICAL never
decreases. -/
theorem c2_escalate_only (a : AIAnalysis) (t : String) :
    ((validateAIAnalysis a t).adjustedUrgency = a.urgency ∨
      (validateAIAnalysis a t).adjustedUrgency = "CRITICAL") ∧
    (a.urgency = "CRITICAL" ∨ a.urgency = "HIGH" →
      (validateAIAnalysis a t).adjustedUrgency = a.urgency) ∧
    (hasCriticalKw t = false →
      (validateAIAnalysis a t).adjustedUrgency = a.urgency) ∧
    urgencyRank a.urgency ≤ urgencyRank (validateAIAnalysis a t).adjustedUrgency := by
  by_cases h1 : hasCriticalKw t = true <;>
    by_cases h2 : a.urgency = "LOW" <;>
      by_cases h3 : a.urgency = "MEDIUM" <;>
        simp [validateAIAnalysis, urgencyRank, h1, h2, h3]

/-- Witness for C2: an input urgency HIGH is left unchanged even though
the text "help" contains a critical keyword. -/
theorem c2_witness :
    (validateAIAnalysis ⟨"HIGH", 0.9, some "fire", some ["rescue"]⟩
        "help").adjustedUrgency = "HIGH" :=
  (c2_escalate_only ⟨"HIGH", 0.9, some "fire", some ["rescue"]⟩ "help").2.1 (Or.inr rfl)

/-- Claim C3: `manualReview` is true exactly when a critical keyword
matches with input urgency LOW/MEDIUM, or confidence is below 0.5, or the
event type is missing (JS-falsy) or the sentinel "Unknown". -/
theorem c3_manual_review_iff (a : AIAnalysis) (t : String) :
    (validateAIAnalysis a t).manualReview = true ↔
      (hasCriticalKw t = true ∧ (a.urgency = "LOW" ∨ a.urgency = "MEDIUM")) ∨
      a.confidence < 0.5 ∨
      (a.eventType = none ∨ a.eventType = some "" ∨ a.eventType = some "Unknown") := by
  rw [manualReview_iff]
  rcases he : a.eventType with _ | s <;>
    simp [eventTypeUnclear, truthyStr, he]

/-- Claim C4: every failure of the structured-analysis call other than a
401, and every unparseable/malformed output, yields the degraded record
(urgency HIGH, confidence 0, eventType "Unknown", needs a single manual
review entry, summary saying analysis failed); a 401 is thrown instead. -/
theorem c4_degraded_result (o : GptOutcome)
    (hfail : gptFailsOrMalformed o = true)
    (hauth : o ≠ .callFailure (some 401)) :
    analyzeSOSContent o = .ok degradedAnalysis ∧
    degradedAnalysis.urgency = "HIGH" ∧
    degradedAnalysis.confidence = 0 ∧
    degradedAnalysis.eventType = "Unknown" ∧
    degradedAnalysis.needs = ["Manual review required"] ∧
    degradedAnalysis.summary = "AI analysis failed - requires manual review" ∧
    analyzeSOSContent (.callFailure (some 401)) = .error "Invalid OpenAI API key" := by
  refine ⟨?_, rfl, rfl, rfl, rfl, rfl, rfl⟩
  match o with
  | .callFailure status =>
    have hs : ¬ (status = some 401) := fun h => hauth (by rw [h])
    simp [analyzeSOSContent, hs]
  | .parseFailure => rfl
  | .parsed raw =>
    have h : (!truthyStr raw.urgency || !truthyStr raw.summary) = true := hfail
    simp [analyzeSOSContent, h]

/-- Witness for C4: an unparseable service reply returns the degraded
record, and a 401 call failure is thrown. -/
theorem c4_witness :
    analyzeSOSContent .parseFailure = .ok degradedAnalysis ∧
    degradedAnalysis.urgency = "HIGH" ∧
    degradedAnalysis.confidence = 0 ∧
    degradedAnalysis.eventType = "Unknown" ∧
    degradedAnalysis.needs = ["Manual review required"] ∧
    degradedAnalysis.summary = "AI analysis failed - requires manual review" ∧
    analyzeSOSContent (.callFailure (some 401)) = .error "Invalid OpenAI API key" :=
  c4_degraded_result .parseFailure (by decide) (by decide)

/-- Claim C5 fails on the text path: a valid text intake creates the Case
in "processing"; when the analysis stage then throws (status 401), the
handler's catch only sends HTTP 500 and the created Case keeps
`status = "processing"` with no recorded processing error — it is never
moved to a terminal state. -/
theorem c5_text_case_stuck_processing :
    (createTextSOS ⟨some "s1", some ⟨some 10, some 20⟩, some "water rising near me"⟩
        (.callFailure (some 401))).httpStatus = 500 ∧
    ((createTextSOS ⟨some "s1", some ⟨some 10, some 20⟩, some "water rising near me"⟩
        (.callFailure (some 401))).caseRecord.map CaseRecord.status) = some "processing" ∧
    ((createTextSOS ⟨some "s1", some ⟨some 10, some 20⟩, some "water rising near me"⟩
        (.callFailure (some 401))).caseRecord.map CaseRecord.processingErrors) = some [] := by
  decide

/-- Claim C6 fails at latitude 0: the request has a sessionId, a valid
sosType and coordinates inside the stated ranges, yet `validateSOSData`
rejects it as missing location data (JS truthiness treats `0` as
missing); an out-of-range latitude of 120 is rejected as intended. -/
theorem c6_zero_latitude_rejected :
    validateSOSData ⟨some "s1", some "text", some ⟨some 0, some 50⟩⟩ =
      ⟨false, ["Location data is required"]⟩ ∧
    (-90 ≤ (0 : ℚ) ∧ (0 : ℚ) ≤ 90 ∧ -180 ≤ (50 : ℚ) ∧ (50 : ℚ) ≤ 180) ∧
    validateSOSData ⟨some "s1", some "text", some ⟨some 120, some 50⟩⟩ =
      ⟨false, ["Invalid latitude value"]⟩ := by
  decide

/-- Claim C7 fails: the listing sorts the urgency strings descending
lexicographically, so the order is MEDIUM, LOW, HIGH, CRITICAL — a
CRITICAL case appears after every other urgency, not first. -/
theorem c7_critical_sorts_last :
    getAllSOS [⟨"CRITICAL", 5⟩, ⟨"MEDIUM", 4⟩, ⟨"LOW", 9⟩, ⟨"HIGH", 2⟩] =
      [⟨"MEDIUM", 4⟩, ⟨"LOW", 9⟩, ⟨"HIGH", 2⟩, ⟨"CRITICAL", 5⟩] := by
  decide

/-- Claim C8: a transcription failure on the voice path marks the Case
failed with the error message as its non-empty error list, leaves the
analysis unpopulated, and the result does not depend on the analysis
adapter's outcome (the analysis stage is never invoked). -/
theorem c8_transcription_failure_terminal (sos : CaseRecord) (msg : String)
    (gpt : GptOutcome) (hinit : sos.aiAnalysis = none) :
    (processVoiceSOS sos (.error msg) gpt).status = "failed" ∧
    (processVoiceSOS sos (.error msg) gpt).processingErrors = [msg] ∧
    (processVoiceSOS sos (.error msg) gpt).processingErrors ≠ [] ∧
    (processVoiceSOS sos (.error msg) gpt).aiAnalysis = none ∧
    ∀ gpt', processVoiceSOS sos (.error msg) gpt =
      processVoiceSOS sos (.error msg) gpt' := by
  simp [processVoiceSOS, hinit]

/-- Witness for C8: a concrete fresh voice Case whose transcription
fails is marked failed with the message recorded. -/
theorem c8_witness :
    (processVoiceSOS voiceCaseEx (.error "Transcription failed: bad audio")
        .parseFailure).status = "failed" ∧
    (processVoiceSOS voiceCaseEx (.error "Transcription failed: bad audio")
        .parseFailure).processingErrors = ["Transcription failed: bad audio"] ∧
    (processVoiceSOS voiceCaseEx (.error "Transcription failed: bad audio")
        .parseFailure).processingErrors ≠ [] ∧
    (processVoiceSOS voiceCaseEx (.error "Transcription failed: bad audio")
        .parseFailure).aiAnalysis = none ∧
    ∀ gpt', processVoiceSOS voiceCaseEx (.error "Transcription failed: bad audio")
        .parseFailure =
      processVoiceSOS voiceCaseEx (.error "Transcription failed: bad audio") gpt' :=
  c8_transcription_failure_terminal voiceCaseEx "Transcription failed: bad audio"
    .parseFailure rfl

/-- Counterexample to C9: with input urgency LOW, high confidence and the
text "help", the override escalates `adjustedUrgency` to CRITICAL, yet
the keyword/urgency mismatch warning is emitted — the code tests the raw
input urgency, not the adjusted one, so the warning fires exactly when
the claim says it must not. -/
theorem c9_mismatch_warning_cex :
    ("Critical keywords detected but urgency not marked as CRITICAL" ∈
        (validateAIAnalysis ⟨"LOW", 0.9, some "fire", some ["water"]⟩ "help").warnings) ∧
    (validateAIAnalysis ⟨"LOW", 0.9, some "fire", some ["water"]⟩
        "help").adjustedUrgency = "CRITICAL" := by
  have h9 : decide ((0.9 : ℚ) ≥ 0.6) = true := decide_eq_true (by norm_num)
  have hk : hasCriticalKw "help" = true := by decide
  constructor
  · simp [validateAIAnalysis, generateWarnings, hk, h9, eventTypeUnclear, truthyStr,
      needsEmpty]
  · simp [validateAIAnalysis, hk]

/-- Amended Claim C9: the warnings list contains the low-confidence
warning iff `meetsThreshold` is false, the keyword/urgency mismatch
warning iff a critical keyword matched and the RAW INPUT urgency (not
the adjusted one) is not CRITICAL, the missing-event-type warning iff
the event type is missing or "Unknown", and the empty-needs warning iff
the needs list is missing or empty. -/
theorem c9_warnings_iff (a : AIAnalysis) (t : String) :
    ("Low confidence in AI analysis" ∈ (validateAIAnalysis a t).warnings ↔
        (validateAIAnalysis a t).meetsThreshold = false) ∧
    ("Critical keywords detected but urgency not marked as CRITICAL" ∈
        (validateAIAnalysis a t).warnings ↔
        (hasCriticalKw t = true ∧ a.urgency ≠ "CRITICAL")) ∧
    ("Unable to determine event type" ∈ (validateAIAnalysis a t).warnings ↔
        eventTypeUnclear a.eventType = true) ∧
    ("No specific needs identified" ∈ (validateAIAnalysis a t).warnings ↔
        needsEmpty a.needs = true) := by
  simpa [validateAIAnalysis] using
    mem_warnings a (hasCriticalKw t) (decide (a.confidence ≥ 0.6))

/-- Claim C10: when the service reply parses with truthy urgency and
summary but a confidence of 0 (or none), the returned confidence is 0.5,
and on such a result the Validation Engine's manual-review flag reduces
to the keyword and event-type clauses alone — the `confidence < 0.5`
rule cannot fire. -/
theorem c10_zero_confidence_defaulted (raw : RawAnalysis) (t : String)
    (hu : truthyStr raw.urgency = true) (hs : truthyStr raw.summary = true)
    (hc : raw.confidence = none ∨ raw.confidence = some 0) :
    ∃ r, analyzeSOSContent (.parsed raw) = .ok r ∧ r.confidence = 0.5 ∧
      ((validateAIAnalysis r.toAIAnalysis t).manualReview = true ↔
        (hasCriticalKw t = true ∧ (r.urgency = "LOW" ∨ r.urgency = "MEDIUM")) ∨
        eventTypeUnclear (some r.eventType) = true) := by
  have hcond : (!truthyStr raw.urgency || !truthyStr raw.summary) = false := by
    simp [hu, hs]
  have hconf : jsOrNum raw.confidence 0.5 = 0.5 := by
    rcases hc with h | h <;> simp [jsOrNum, h]
  refine ⟨{ urgency := jsOrStr raw.urgency "MEDIUM",
            summary := jsOrStr raw.summary "Unable to generate summary",
            eventType := jsOrStr raw.eventType "Unknown",
            injuryStatus := jsOrStr raw.injuryStatus "Unknown",
            riskFactors := raw.riskFactors.getD [],
            needs := raw.needs.getD [],
            confidence := jsOrNum raw.confidence 0.5 }, ?_, hconf, ?_⟩
  · simp [analyzeSOSContent, hcond]
  · rw [manualReview_iff]
    simp [Analysis.toAIAnalysis, hconf]

/-- Witness for C10: a parsed reply with confidence 0 yields a record
with confidence 0.5 whose manual-review condition has no confidence
clause. -/
theorem c10_witness :
    ∃ r, analyzeSOSContent (.parsed
        { urgency := some "LOW", summary := some "Situation summary",
          eventType := some "fire", injuryStatus := some "none",
          riskFactors := some [], needs := some ["water"],
          confidence := some 0 }) = .ok r ∧ r.confidence = 0.5 ∧
      ((validateAIAnalysis r.toAIAnalysis "quiet").manualReview = true ↔
        (hasCriticalKw "quiet" = true ∧ (r.urgency = "LOW" ∨ r.urgency = "MEDIUM")) ∨
        eventTypeUnclear (some r.eventType) = true) :=
  c10_zero_confidence_defaulted
    { urgency := some "LOW", summary := some "Situation summary",
      eventType := some "fire", injuryStatus := some "none",
      riskFactors := some [], needs := some ["water"], confidence := some 0 }
    "quiet" (by decide) (by decide) (Or.inr rfl)
